import Mathlib

/-!
Shallow embedding of the FastBreak ai-scouting valuation-and-reasoning core
(`src/services/ai-scouting`): the performance analyzer, the moment valuator
and the reasoning persistence layer, together with proofs of the specified
properties.

Numeric conventions: Python floats are modelled exactly, as rationals where
the source computes only field operations and as reals where the source
takes a square root (numpy standard deviation) or a logarithm.  Pydantic
`Field(ge=..., le=...)` bounds and field-type annotations are modelled by
checked constructors returning `Except`: pydantic validates at construction
time and raises `ValidationError` when a bound or a type annotation is
violated.  String fields that no verified property depends on (human
readable descriptions) are carried as opaque strings.
-/

namespace FastBreak

/-! ### Data model: `src/models/player_stats.py`

Identifier and date fields (`game_id`, `player_id`, `game_date`, `opponent`,
shooting-split percentages) are omitted: no analysed operation reads them.
Box-score counters are naturals because pydantic bounds them with `ge=0`. -/

/-- One game's box-score line for a player (`GameStats`). -/
structure GameStats where
  minutes_played : ℚ
  points : ℕ
  rebounds : ℕ
  assists : ℕ
  steals : ℕ
  blocks : ℕ
  turnovers : ℕ
  field_goals_made : ℕ
  field_goals_attempted : ℕ
  free_throws_made : ℕ
  free_throws_attempted : ℕ
  plus_minus : Option ℤ
deriving Repr, DecidableEq

/-- `GameStats.efficiency_rating`: points + rebounds + assists + steals +
blocks − missed field goals − missed free throws − turnovers.  Integer
valued and possibly negative. -/
def GameStats.efficiency_rating (g : GameStats) : ℤ :=
  (g.points : ℤ) + g.rebounds + g.assists + g.steals + g.blocks
    - ((g.field_goals_attempted : ℤ) - g.field_goals_made)
    - ((g.free_throws_attempted : ℤ) - g.free_throws_made)
    - (g.turnovers : ℤ)

/-- Season per-game averages (`SeasonStats`); only the fields read by
`predict_next_game_performance` are carried. -/
structure SeasonStats where
  points_per_game : ℚ
  rebounds_per_game : ℚ
  assists_per_game : ℚ
deriving Repr, DecidableEq

/-- `PlayerPerformanceMetrics`: the six sub-scores plus market momentum.
Real valued because `season_consistency` is derived through a standard
deviation. -/
structure PlayerPerformanceMetrics where
  recent_form_score : ℝ
  season_consistency : ℝ
  clutch_performance : ℝ
  injury_risk : ℝ
  market_momentum : ℝ
  breakout_potential : ℝ
  veteran_stability : ℝ

/-! ### List statistics (numpy `mean`, `std` and Python slices) -/

/-- Python slice `l[-n:]`: the last `n` elements of `l`. -/
def lastN (n : ℕ) (l : List α) : List α := l.drop (l.length - n)

/-- `numpy.mean` over rationals (sum divided by length; Lean's total
division returns 0 on the empty list, which every use guards against). -/
def listMean (l : List ℚ) : ℚ := l.sum / l.length

/-- Population variance (`numpy.std` squared, `ddof = 0`). -/
def listVariance (l : List ℚ) : ℚ :=
  ((l.map (fun x => (x - listMean l) ^ 2)).sum) / l.length

/-- `numpy.std`: square root of the population variance. -/
noncomputable def listStd (l : List ℚ) : ℝ := Real.sqrt ((listVariance l : ℚ) : ℝ)

/-- `numpy.mean` over reals. -/
noncomputable def listMeanR (l : List ℝ) : ℝ := l.sum / l.length

/-- Population variance over reals. -/
noncomputable def listVarianceR (l : List ℝ) : ℝ :=
  ((l.map (fun x => (x - listMeanR l) ^ 2)).sum) / l.length

/-- `numpy.std` over reals. -/
noncomputable def listStdR (l : List ℝ) : ℝ := Real.sqrt (listVarianceR l)

/-! ### `src/analysis/performance_analyzer.py` -/

/-- The per-game composite inside `calculate_recent_form_score`: weighted
blend of points, rebounds, assists, steals, blocks and efficiency rating,
scaled by the minutes-played fraction of 36 and capped above at 100.  The
source applies only the upper cap `min(game_score, 100.0)`; there is no
lower clamp, so a sufficiently negative efficiency rating makes the
composite negative. -/
def gameCompositeScore (g : GameStats) : ℚ :=
  let minutes_factor : ℚ := min (g.minutes_played / 36) 1
  let game_score : ℚ :=
    ((g.points : ℚ) / 30 * 25 +
     (g.rebounds : ℚ) / 15 * 15 +
     (g.assists : ℚ) / 12 * 15 +
     (g.steals : ℚ) / 4 * 10 +
     (g.blocks : ℚ) / 4 * 10 +
     (g.efficiency_rating : ℚ) / 30 * 25) * minutes_factor
  min game_score 100

/-- Default recency weights `1.0 / (i + 1)` for `i` in `range(n)`. -/
def defaultRecencyWeights (n : ℕ) : List ℚ :=
  (List.range n).map (fun i => 1 / ((i : ℚ) + 1))

/-- `PerformanceAnalyzer.calculate_recent_form_score`: empty input returns
the neutral 50.0; otherwise the caller-supplied (or default recency)
weights are normalized to sum to 1 and the weighted per-game composites
are summed. -/
def calculate_recent_form_score (recent_games : List GameStats)
    (weights : Option (List ℚ)) : ℚ :=
  if recent_games.isEmpty then 50
  else
    let ws := weights.getD (defaultRecencyWeights recent_games.length)
    let total_weight := ws.sum
    let norm := ws.map (fun w => w / total_weight)
    ((recent_games.zip norm).map (fun p => gameCompositeScore p.1 * p.2)).sum

/-- Coefficient of variation `np.std(values) / np.mean(values)`, or 1.0
when the list is empty or its mean is zero. -/
noncomputable def coefficient_of_variation (values : List ℚ) : ℝ :=
  if values.isEmpty ∨ listMean values = 0 then 1
  else listStd values / ((listMean values : ℚ) : ℝ)

/-- `PerformanceAnalyzer.calculate_season_consistency`: fewer than five
games returns the neutral 50.0; otherwise `max(0, 100 − avgCV·100)` over
the average coefficient of variation of points, rebounds and assists.
The `season_stats` argument is accepted but never read, as in the source. -/
noncomputable def calculate_season_consistency (_season_stats : SeasonStats)
    (recent_games : List GameStats) : ℝ :=
  if recent_games.length < 5 then 50
  else
    let points_cv := coefficient_of_variation (recent_games.map (fun g => (g.points : ℚ)))
    let rebounds_cv := coefficient_of_variation (recent_games.map (fun g => (g.rebounds : ℚ)))
    let assists_cv := coefficient_of_variation (recent_games.map (fun g => (g.assists : ℚ)))
    let avg_cv := (points_cv + rebounds_cv + assists_cv) / 3
    max 0 (100 - avg_cv * 100)

/-- `PerformanceAnalyzer.calculate_clutch_performance`: maps each game
with a plus/minus value to `clamp(50 + 2·plus_minus, 0, 100)` and averages
those; no games, or no game with a plus/minus value, returns 50.0. -/
def calculate_clutch_performance (recent_games : List GameStats) : ℚ :=
  if recent_games.isEmpty then 50
  else
    let clutch_scores := recent_games.filterMap (fun g =>
      g.plus_minus.map (fun pm => max 0 (min 100 (50 + (pm : ℚ) * 2))))
    if clutch_scores.isEmpty then 50 else listMean clutch_scores

/-- Output record of `predict_next_game_performance` (the source returns a
dict with these four keys). -/
structure GamePredictionOut where
  predicted_points : ℚ
  predicted_rebounds : ℚ
  predicted_assists : ℚ
  confidence : ℝ

/-- `PerformanceAnalyzer.predict_next_game_performance`.  With no recent
games it falls back to the season per-game averages with confidence 0.5.
Otherwise it averages the last five games, divides the points projection by
the difficulty factor `opponent_defense_rating / 112.0`, leaves rebounds
unadjusted, divides assists by half the difficulty factor, and sets
confidence to `max(0.3, 1 − std(points of last 10) / recentPointsAvg)`.
When the recent points average is zero the Python float arithmetic yields
`inf` or `nan` in place of the quotient and `max` then returns 0.3; the
embedding states that case explicitly. -/
noncomputable def predict_next_game_performance (season_stats : SeasonStats)
    (recent_games : List GameStats) (opponent_defense_rating : ℚ) :
    GamePredictionOut :=
  if recent_games.isEmpty then
    { predicted_points := season_stats.points_per_game
      predicted_rebounds := season_stats.rebounds_per_game
      predicted_assists := season_stats.assists_per_game
      confidence := 0.5 }
  else
    let recent_points := listMean ((lastN 5 recent_games).map (fun g => (g.points : ℚ)))
    let recent_rebounds := listMean ((lastN 5 recent_games).map (fun g => (g.rebounds : ℚ)))
    let recent_assists := listMean ((lastN 5 recent_games).map (fun g => (g.assists : ℚ)))
    let league_avg_defense : ℚ := 112
    let difficulty_factor := opponent_defense_rating / league_avg_defense
    let points_std := listStd ((lastN 10 recent_games).map (fun g => (g.points : ℚ)))
    let confidence : ℝ :=
      if recent_points = 0 then 0.3
      else max 0.3 (1 - points_std / ((recent_points : ℚ) : ℝ))
    { predicted_points := recent_points / difficulty_factor
      predicted_rebounds := recent_rebounds
      predicted_assists := recent_assists / (difficulty_factor * (1 / 2))
      confidence := confidence }

/-! ### Data model: `src/models/moment_analysis.py` -/

/-- The `MomentType` enumeration. -/
inductive MomentTypeT where
  | dunk | three_pointer | assist | steal | block | rebound | game_winner | milestone
deriving Repr, DecidableEq

/-- `MomentAnalysisRequest` (the `game_date` and free-text fields that no
analysed operation reads are kept only where used).  `serial_number` is an
unconstrained pydantic `int`. -/
structure MomentAnalysisRequest where
  moment_id : String
  player_id : String
  moment_type : MomentTypeT
  serial_number : ℤ
  current_price : ℚ
  marketplace_id : String
deriving Repr, DecidableEq

/-- A pydantic field value as far as the type checks of
`PlayerPerformanceFactor` observe it: a float, a string, or a dict. -/
inductive PyVal where
  | num (x : ℝ)
  | str (s : String)
  | dict (entries : List (String × ℝ))

/-- The shared `ValuationFactor` fields (`factor_type`, `weight`, `value`,
`description`, `impact`).  Pydantic bounds `weight` to `[0,1]` and `impact`
to `[-100,100]`; `value` is unbounded in the model. -/
structure ValuationFactor where
  factor_type : String
  weight : ℝ
  value : ℝ
  description : String
  impact : ℝ

/-- `PlayerPerformanceFactor` after successful pydantic validation:
`recent_games_performance` and `season_performance` are dicts,
`career_trajectory` a string and `clutch_performance` a float in `[0,1]`. -/
structure PlayerPerformanceFactorV extends ValuationFactor where
  recent_games_performance : List (String × ℝ)
  season_performance : List (String × ℝ)
  career_trajectory : String
  clutch_performance : ℝ

/-- Checked pydantic constructor for `PlayerPerformanceFactor`: validates
the base bounds, the dict type of `recent_games_performance` and
`season_performance`, the string type of `career_trajectory`, and the
`[0,1]` bound on `clutch_performance`. -/
noncomputable def mkPlayerPerformanceFactor (factor_type : String) (weight value : ℝ)
    (description : String) (impact : ℝ)
    (recent_games_performance season_performance career_trajectory : PyVal)
    (clutch_performance : ℝ) : Except String PlayerPerformanceFactorV :=
  match recent_games_performance, season_performance, career_trajectory with
  | .dict rgp, .dict sp, .str ct =>
      if 0 ≤ weight ∧ weight ≤ 1 ∧ -100 ≤ impact ∧ impact ≤ 100 ∧
          0 ≤ clutch_performance ∧ clutch_performance ≤ 1 then
        .ok { factor_type := factor_type, weight := weight, value := value,
              description := description, impact := impact,
              recent_games_performance := rgp, season_performance := sp,
              career_trajectory := ct, clutch_performance := clutch_performance }
      else .error "ValidationError: PlayerPerformanceFactor bounds"
  | _, _, _ => .error "ValidationError: PlayerPerformanceFactor field types"

/-- `ScarcityFactor` after successful pydantic validation: pydantic bounds
`serial_number_rarity` and `moment_type_rarity` to `[0,1]`. -/
structure ScarcityFactorV extends ValuationFactor where
  serial_number_rarity : ℝ
  moment_type_rarity : ℝ
  player_moment_count : ℤ
  total_circulation : ℤ

/-- Checked pydantic constructor for `ScarcityFactor`. -/
noncomputable def mkScarcityFactor (factor_type : String) (weight value : ℝ)
    (description : String) (impact serial_number_rarity moment_type_rarity : ℝ)
    (player_moment_count total_circulation : ℤ) : Except String ScarcityFactorV :=
  if 0 ≤ weight ∧ weight ≤ 1 ∧ -100 ≤ impact ∧ impact ≤ 100 ∧
      0 ≤ serial_number_rarity ∧ serial_number_rarity ≤ 1 ∧
      0 ≤ moment_type_rarity ∧ moment_type_rarity ≤ 1 ∧
      0 ≤ player_moment_count ∧ 0 ≤ total_circulation then
    .ok { factor_type := factor_type, weight := weight, value := value,
          description := description, impact := impact,
          serial_number_rarity := serial_number_rarity,
          moment_type_rarity := moment_type_rarity,
          player_moment_count := player_moment_count,
          total_circulation := total_circulation }
  else .error "ValidationError: ScarcityFactor bounds"

/-- `MarketTrendFactor` after successful pydantic validation. -/
structure MarketTrendFactorV extends ValuationFactor where
  price_momentum : ℝ
  volume_trend : ℝ
  market_sentiment : ℝ
  comparable_sales : List ℚ

/-- Checked pydantic constructor for `MarketTrendFactor`: momentum and
volume trend in `[-100,100]`, sentiment in `[-1,1]`. -/
noncomputable def mkMarketTrendFactor (factor_type : String) (weight value : ℝ)
    (description : String) (impact price_momentum volume_trend market_sentiment : ℝ)
    (comparable_sales : List ℚ) : Except String MarketTrendFactorV :=
  if 0 ≤ weight ∧ weight ≤ 1 ∧ -100 ≤ impact ∧ impact ≤ 100 ∧
      -100 ≤ price_momentum ∧ price_momentum ≤ 100 ∧
      -100 ≤ volume_trend ∧ volume_trend ≤ 100 ∧
      -1 ≤ market_sentiment ∧ market_sentiment ≤ 1 then
    .ok { factor_type := factor_type, weight := weight, value := value,
          description := description, impact := impact,
          price_momentum := price_momentum, volume_trend := volume_trend,
          market_sentiment := market_sentiment, comparable_sales := comparable_sales }
  else .error "ValidationError: MarketTrendFactor bounds"

/-- `SocialSentimentFactor` after successful pydantic validation. -/
structure SocialSentimentFactorV extends ValuationFactor where
  social_mentions : ℚ
  sentiment_score : ℝ
  viral_potential : ℝ
  influencer_mentions : ℚ

/-- Checked pydantic constructor for `SocialSentimentFactor`: mentions
non-negative, sentiment in `[-1,1]`, viral potential in `[0,100]`. -/
noncomputable def mkSocialSentimentFactor (factor_type : String) (weight value : ℝ)
    (description : String) (impact : ℝ) (social_mentions : ℚ)
    (sentiment_score viral_potential : ℝ) (influencer_mentions : ℚ) :
    Except String SocialSentimentFactorV :=
  if 0 ≤ weight ∧ weight ≤ 1 ∧ -100 ≤ impact ∧ impact ≤ 100 ∧
      0 ≤ social_mentions ∧ -1 ≤ sentiment_score ∧ sentiment_score ≤ 1 ∧
      0 ≤ viral_potential ∧ viral_potential ≤ 100 ∧ 0 ≤ influencer_mentions then
    .ok { factor_type := factor_type, weight := weight, value := value,
          description := description, impact := impact,
          social_mentions := social_mentions, sentiment_score := sentiment_score,
          viral_potential := viral_potential, influencer_mentions := influencer_mentions }
  else .error "ValidationError: SocialSentimentFactor bounds"

/-! ### `src/analysis/moment_valuator.py` -/

/-- The fixed factor weights of `MomentValuator.__init__`. -/
def factorWeights_player_performance : ℝ := 0.35
/-- Scarcity weight. -/
def factorWeights_scarcity : ℝ := 0.25
/-- Market-trend weight. -/
def factorWeights_market_trend : ℝ := 0.20
/-- Social-sentiment weight. -/
def factorWeights_social_sentiment : ℝ := 0.20

/-- Serial-number rarity inside `calculate_scarcity_factor`:
`min(100, max(0, 100 − serial/1000·100))`; lower serials are rarer, and the
value saturates at 0 for serials of 1000 and above and at 100 for serials
of 0 and below. -/
def serialNumberRarity (serial_number : ℤ) : ℚ :=
  min 100 (max 0 (100 - ((serial_number : ℚ) / 1000) * 100))

/-- The `moment_type_scores` lookup table of `calculate_scarcity_factor`.
The `.get(..., 60)` default is unreachable: the table covers all eight
members of the `MomentType` enumeration. -/
def momentTypeRarity : MomentTypeT → ℚ
  | .dunk => 85
  | .game_winner => 95
  | .milestone => 90
  | .three_pointer => 70
  | .assist => 60
  | .steal => 75
  | .block => 80
  | .rebound => 50

/-- `MomentValuator.calculate_scarcity_factor`: blends serial, type, player
and circulation scarcities 0.4/0.3/0.2/0.1, sets impact to
`(blend − 50)·1.5`, and hands the 0-100-scale rarities to the pydantic
constructor (whose model bounds them to `[0,1]`). -/
noncomputable def calculate_scarcity_factor (moment_request : MomentAnalysisRequest)
    (total_moments_for_player total_circulation : ℤ) : Except String ScarcityFactorV :=
  let serial_rarity := serialNumberRarity moment_request.serial_number
  let moment_type_rarity := momentTypeRarity moment_request.moment_type
  let player_scarcity : ℚ :=
    min 100 (max 0 (100 - ((total_moments_for_player : ℚ) / 100) * 100))
  let circulation_scarcity : ℚ :=
    min 100 (max 0 (100 - ((total_circulation : ℚ) / 10000) * 100))
  let overall_scarcity : ℚ :=
    serial_rarity * (4/10) + moment_type_rarity * (3/10) +
    player_scarcity * (2/10) + circulation_scarcity * (1/10)
  let impact : ℚ := (overall_scarcity - 50) * (3/2)
  mkScarcityFactor "scarcity" factorWeights_scarcity ((overall_scarcity : ℝ) / 100)
    "Scarcity analysis" (impact : ℝ) (serial_rarity : ℝ) (moment_type_rarity : ℝ)
    total_moments_for_player total_circulation

/-- One entry of the `price_history` list: the `price` value and the
`volume` value read through `.get('volume', 0)`. -/
structure PricePoint where
  price : ℚ
  volume : ℚ
deriving Repr, DecidableEq

/-- `MomentValuator.calculate_market_trend_factor`.  With no price history:
neutral value 0.5 and impact 0.  Otherwise price momentum is the clamped
percentage change across the last ten points, volume trend likewise with a
divide-by-zero floor of 1, and market sentiment the clamped relative gap to
the mean comparable-sale price (0 with no comparables). -/
noncomputable def calculate_market_trend_factor (moment_request : MomentAnalysisRequest)
    (price_history : List PricePoint) (comparable_sales : List ℚ) :
    Except String MarketTrendFactorV :=
  if price_history.isEmpty then
    mkMarketTrendFactor "market_trend" factorWeights_market_trend 0.5
      "No price history available" 0 0 0 0 []
  else
    let recent_prices := (lastN 10 price_history).map (fun p => p.price)
    let price_momentum : ℚ :=
      if 2 ≤ recent_prices.length then
        max (-100) (min 100
          ((recent_prices.getLastD 0 - recent_prices.headD 0) / recent_prices.headD 0 * 100))
      else 0
    let recent_volumes := (lastN 10 price_history).map (fun p => p.volume)
    let volume_trend : ℚ :=
      if 2 ≤ recent_volumes.length ∧ 0 < recent_volumes.sum then
        max (-100) (min 100
          ((recent_volumes.getLastD 0 - recent_volumes.headD 0) /
            max (recent_volumes.headD 0) 1 * 100))
      else 0
    let market_sentiment : ℚ :=
      if comparable_sales.isEmpty then 0
      else
        let avg_comparable_price := listMean comparable_sales
        max (-1) (min 1
          ((moment_request.current_price - avg_comparable_price) / avg_comparable_price))
    let trend_score : ℚ :=
      (price_momentum + 100) / 2 * (4/10) +
      (volume_trend + 100) / 2 * (3/10) +
      (market_sentiment + 1) * 50 * (3/10)
    let impact : ℚ := (trend_score - 50) * (12/10)
    mkMarketTrendFactor "market_trend" factorWeights_market_trend ((trend_score : ℝ) / 100)
      "Market trend" (impact : ℝ) (price_momentum : ℝ) (volume_trend : ℝ)
      (market_sentiment : ℝ) comparable_sales

/-- The `social_data` payload read by `calculate_social_sentiment_factor`. -/
structure SocialData where
  mentions : ℚ
  sentiment : ℝ
  viral_score : ℝ
  influencer_mentions : ℚ

/-- The documented default social payload substituted when no social data
is supplied. -/
def defaultSocialData : SocialData :=
  { mentions := 100, sentiment := 0.1, viral_score := 30, influencer_mentions := 5 }

/-- `MomentValuator.calculate_social_sentiment_factor`: mentions are
log-scaled, sentiment rescaled from `[-1,1]` to `[0,100]`, blended
0.3/0.4/0.2/0.1 with the viral score and the capped influencer term, and
the impact is `(blend − 50)·0.8`. -/
noncomputable def calculate_social_sentiment_factor (_player_id : String)
    (social_data : Option SocialData) : Except String SocialSentimentFactorV :=
  let d := social_data.getD defaultSocialData
  let mentions_score : ℝ := min 100 (Real.logb 10 (max 1 (d.mentions : ℝ)) * 20)
  let sentiment_score : ℝ := (d.sentiment + 1) * 50
  let social_score : ℝ :=
    mentions_score * 0.3 + sentiment_score * 0.4 + d.viral_score * 0.2 +
    min 100 ((d.influencer_mentions : ℝ) * 10) * 0.1
  let impact : ℝ := (social_score - 50) * 0.8
  mkSocialSentimentFactor "social_sentiment" factorWeights_social_sentiment
    (social_score / 100) "Social sentiment" impact d.mentions d.sentiment
    d.viral_score d.influencer_mentions

/-- `MomentValuator.calculate_fair_value`: the weighted impact average
`Σ impact·weight / Σ weight` (0 when the total weight is not positive)
applied multiplicatively to the base price, and a confidence of
`clamp(1 − std(values), 0.3, 1.0)` with at least two factors, else 0.5. -/
noncomputable def calculate_fair_value (factors : List ValuationFactor)
    (base_price : ℚ) : ℝ × ℝ :=
  let total_impact := (factors.map (fun f => f.impact * f.weight)).sum
  let total_weight := (factors.map (fun f => f.weight)).sum
  let avg_impact := if 0 < total_weight then total_impact / total_weight else 0
  let impact_multiplier := 1 + avg_impact / 100
  let fair_value := ((base_price : ℝ)) * impact_multiplier
  let factor_values := factors.map (fun f => f.value)
  let confidence :=
    if 1 < factor_values.length then max 0.3 (min 1 (1 - listStdR factor_values))
    else 0.5
  (fair_value, confidence)

/-- The recommendation thresholds of `analyze_moment` on the price ratio
`fair_value / current_price`. -/
noncomputable def recommendation_for_ratio (price_ratio : ℝ) : String :=
  if 1.2 < price_ratio then "Strong Buy"
  else if 1.05 < price_ratio then "Buy"
  else if 0.95 < price_ratio then "Hold"
  else if 0.8 < price_ratio then "Sell"
  else "Strong Sell"

/-- `MomentValuator._create_performance_factor`: overall score
`0.4·recentForm + 0.3·consistency + 0.3·clutch`, impact `(overall − 50)·1.5`.
The source passes the float scores `recent_form_score` and
`season_consistency` for the dict-typed fields `recent_games_performance`
and `season_performance`, the float `breakout_potential` for the
string-typed `career_trajectory`, and the 0-100-scale `clutch_performance`
for the `[0,1]`-bounded field of the same name. -/
noncomputable def create_performance_factor
    (performance_metrics : PlayerPerformanceMetrics) :
    Except String PlayerPerformanceFactorV :=
  let overall_score : ℝ :=
    performance_metrics.recent_form_score * 0.4 +
    performance_metrics.season_consistency * 0.3 +
    performance_metrics.clutch_performance * 0.3
  let impact : ℝ := (overall_score - 50) * 1.5
  mkPlayerPerformanceFactor "player_performance" factorWeights_player_performance
    (overall_score / 100) "Player performance" impact
    (.num performance_metrics.recent_form_score)
    (.num performance_metrics.season_consistency)
    (.num performance_metrics.breakout_potential)
    performance_metrics.clutch_performance

/-- `MomentValuation` as built by `analyze_moment` (timestamp omitted). -/
structure MomentValuationV where
  moment_id : String
  fair_value : ℝ
  confidence_score : ℝ
  price_range_low : ℝ
  price_range_high : ℝ
  recommendation : String

/-- `MomentAnalysisResult` as built by `analyze_moment`, keeping the fields
the analysed operations read; the `market_analysis` dict is represented by
its `current_price` and `price_ratio` entries. -/
structure MomentAnalysisResultV where
  moment_id : String
  valuation : MomentValuationV
  factors : List ValuationFactor
  market_current_price : ℚ
  price_ratio : ℝ
  recommendations : List String

/-- The `market_data` dict handed to `analyze_moment`; absent keys are
`none` and the source's `.get` defaults apply at the use sites. -/
structure MarketData where
  total_moments_for_player : Option ℤ
  total_circulation : Option ℤ
  price_history : Option (List PricePoint)
  comparable_sales : Option (List ℚ)
  volatility : Option ℚ
  liquidity_risk : Option ℚ

/-- The empty `market_data` dict. -/
def emptyMarketData : MarketData :=
  { total_moments_for_player := none, total_circulation := none,
    price_history := none, comparable_sales := none,
    volatility := none, liquidity_risk := none }

/-- `MomentValuator._generate_recommendations`: the price-delta message for
ratios above 1.2 or below 0.8, one line per factor whose impact exceeds 20
in magnitude, and a confidence caveat outside `(0.5, 0.8)`.  The message
strings are opaque labels. -/
noncomputable def generate_recommendations (price_ratio : ℝ)
    (confidence_score : ℝ) (factors : List ValuationFactor) : List String :=
  (if 1.2 < price_ratio then ["Strong buy opportunity"]
   else if price_ratio < 0.8 then ["Consider selling"] else []) ++
  factors.filterMap (fun f =>
    if 20 < f.impact then some ("Positive " ++ f.factor_type)
    else if f.impact < -20 then some ("Negative " ++ f.factor_type)
    else none) ++
  (if confidence_score < 0.5 then ["Low confidence analysis"]
   else if 0.8 < confidence_score then ["High confidence analysis"] else [])

/-- `MomentValuator.analyze_moment`: builds the four factors (each through
its checked pydantic constructor), computes fair value, confidence and the
threshold recommendation, and assembles the result.  Any factor
construction error propagates, exactly as a pydantic `ValidationError`
aborts the Python call.  (The source's final `MomentValuation` and
`MomentAnalysisResult` constructions would themselves fail validation —
the result model requires fields the call never passes — but control never
reaches them.) -/
noncomputable def analyze_moment (moment_request : MomentAnalysisRequest)
    (player_performance : PlayerPerformanceMetrics) (market_data : MarketData)
    (social_data : Option SocialData) : Except String MomentAnalysisResultV := do
  let performance_factor ← create_performance_factor player_performance
  let scarcity_factor ← calculate_scarcity_factor moment_request
    (market_data.total_moments_for_player.getD 50)
    (market_data.total_circulation.getD 1000)
  let market_factor ← calculate_market_trend_factor moment_request
    (market_data.price_history.getD []) (market_data.comparable_sales.getD [])
  let sentiment_factor ← calculate_social_sentiment_factor moment_request.player_id
    social_data
  let factors := [performance_factor.toValuationFactor,
    scarcity_factor.toValuationFactor, market_factor.toValuationFactor,
    sentiment_factor.toValuationFactor]
  let fv := calculate_fair_value factors moment_request.current_price
  let fair_value := fv.1
  let confidence := fv.2
  let price_ratio := fair_value / (moment_request.current_price : ℝ)
  let recommendation := recommendation_for_ratio price_ratio
  let valuation : MomentValuationV :=
    { moment_id := moment_request.moment_id, fair_value := fair_value,
      confidence_score := confidence, price_range_low := fair_value * 0.85,
      price_range_high := fair_value * 1.15, recommendation := recommendation }
  return { moment_id := moment_request.moment_id, valuation := valuation,
           factors := factors,
           market_current_price := moment_request.current_price,
           price_ratio := price_ratio,
           recommendations := generate_recommendations price_ratio confidence factors }

/-- `MomentValuator.batch_analyze_moments`: processes each request in
order; a request whose player id has no performance entry is skipped with a
warning, and a per-item exception (here: an `Except.error`) is caught and
skipped, so one bad input cannot abort the batch. -/
noncomputable def batch_analyze_moments (moment_requests : List MomentAnalysisRequest)
    (player_performances : List (String × PlayerPerformanceMetrics))
    (market_data : List (String × MarketData)) : List MomentAnalysisResultV :=
  match moment_requests with
  | [] => []
  | moment_request :: rest =>
    let tail := batch_analyze_moments rest player_performances market_data
    match player_performances.lookup moment_request.player_id with
    | some player_perf =>
        match analyze_moment moment_request player_perf
            ((market_data.lookup moment_request.moment_id).getD emptyMarketData)
            none with
        | .ok result => result :: tail
        | .error _ => tail
    | none => tail

/-- The upside ratio `fair_value / market_analysis['current_price']` used
by `get_undervalued_moments` both as filter bound and as sort key. -/
noncomputable def upsideRatio (result : MomentAnalysisResultV) : ℝ :=
  result.valuation.fair_value / (result.market_current_price : ℝ)

/-- `MomentValuator.get_undervalued_moments`: keeps results with
`confidence_score ≥ min_confidence` and upside ratio strictly above
`1 + min_upside`, then sorts descending by that ratio (`list.sort` with
`reverse=True`; tie order is irrelevant to every stated property). -/
noncomputable def get_undervalued_moments (analysis_results : List MomentAnalysisResultV)
    (min_confidence : ℝ) (min_upside : ℝ) : List MomentAnalysisResultV :=
  let undervalued := analysis_results.filter (fun r =>
    decide (min_confidence ≤ r.valuation.confidence_score) &&
    decide (1 + min_upside < upsideRatio r))
  undervalued.insertionSort (fun a b => upsideRatio b ≤ upsideRatio a)

/-! ### Data model: `src/models/reasoning.py` and the persistence layer of
`src/services/reasoning_service.py`

The durable store is modelled by explicit table states with the row
contents and query semantics read off the SQL text in `store_reasoning`,
`get_reasoning_by_moment` and `_get_reasoning_factors`: inserts append
rows, `WHERE` filters, `ORDER BY ... DESC` sorts descending on the named
column, `LIMIT` truncates.  `uuid4` primary keys are modelled by a fresh
natural from a counter, and the store-assigned `created_at` column by a
logical clock that advances on every insert. -/

/-- The `ReasoningFactorType` enumeration. -/
inductive ReasoningFactorTypeT where
  | player_performance | market_trend | scarcity | social_sentiment
  | technical_analysis | fundamental_analysis | risk_assessment
deriving Repr, DecidableEq

/-- `ReasoningFactor`: a reasoning-layer factor. -/
structure ReasoningFactorV where
  factor_type : ReasoningFactorTypeT
  name : String
  weight : ℚ
  value : ℚ
  raw_value : Option ℚ
  impact : ℚ
  confidence : ℚ
  description : String
  supporting_data : List (String × ℚ)
deriving Repr, DecidableEq

/-- `AIReasoningResult`: the persisted reasoning record.  The three
structured narrative blocks are carried as their serialized JSON payloads,
which is how `store_reasoning` persists them. -/
structure AIReasoningResultV where
  moment_id : String
  decision : String
  confidence_score : ℚ
  factors : List ReasoningFactorV
  primary_reasoning : String
  supporting_reasons : List String
  risk_factors : List String
  key_statistics : List (String × ℚ)
  market_context : String
  player_analysis : String
  scarcity_analysis : String
  analysis_version : String
deriving Repr, DecidableEq

/-- A row of the `ai_reasoning` table. -/
structure ReasoningRow where
  id : ℕ
  moment_id : String
  user_id : Option String
  decision : String
  confidence_score : ℚ
  primary_reasoning : String
  supporting_reasons : List String
  risk_factors : List String
  key_statistics : List (String × ℚ)
  analysis_version : String
  created_at : ℕ
deriving Repr, DecidableEq

/-- A row of the `reasoning_factors` table. -/
structure FactorRow where
  reasoning_id : ℕ
  factor : ReasoningFactorV
deriving Repr, DecidableEq

/-- A row of the `reasoning_context` table. -/
structure ContextRow where
  reasoning_id : ℕ
  player_analysis : String
  market_context : String
  scarcity_analysis : String
deriving Repr, DecidableEq

/-- The state of the durable store: the three tables, the fresh-id counter
and the `created_at` clock. -/
structure DBState where
  reasoning : List ReasoningRow
  factors : List FactorRow
  contexts : List ContextRow
  next_id : ℕ
  clock : ℕ

/-- The empty store. -/
def emptyDB : DBState :=
  { reasoning := [], factors := [], contexts := [], next_id := 0, clock := 0 }

/-- `ReasoningService.store_reasoning`: inserts one parent `ai_reasoning`
row, one `reasoning_factors` row per factor (in factor-list order) and one
`reasoning_context` row, all under a fresh reasoning id; returns the id
and the updated store. -/
def store_reasoning (reasoning_result : AIReasoningResultV)
    (user_id : Option String) (db : DBState) : ℕ × DBState :=
  let reasoning_id := db.next_id
  (reasoning_id,
   { reasoning := db.reasoning ++
       [{ id := reasoning_id, moment_id := reasoning_result.moment_id,
          user_id := user_id, decision := reasoning_result.decision,
          confidence_score := reasoning_result.confidence_score,
          primary_reasoning := reasoning_result.primary_reasoning,
          supporting_reasons := reasoning_result.supporting_reasons,
          risk_factors := reasoning_result.risk_factors,
          key_statistics := reasoning_result.key_statistics,
          analysis_version := reasoning_result.analysis_version,
          created_at := db.clock }],
     factors := db.factors ++ reasoning_result.factors.map
       (fun f => { reasoning_id := reasoning_id, factor := f }),
     contexts := db.contexts ++
       [{ reasoning_id := reasoning_id,
          player_analysis := reasoning_result.player_analysis,
          market_context := reasoning_result.market_context,
          scarcity_analysis := reasoning_result.scarcity_analysis }],
     next_id := db.next_id + 1,
     clock := db.clock + 1 })

/-- `ReasoningService._get_reasoning_factors`: the `reasoning_factors`
rows of the given reasoning id, ordered by descending weight
(`ORDER BY weight DESC`). -/
def get_reasoning_factors (db : DBState) (reasoning_id : ℕ) : List ReasoningFactorV :=
  ((db.factors.filter (fun row => row.reasoning_id == reasoning_id)).insertionSort
    (fun a b => b.factor.weight ≤ a.factor.weight)).map (fun row => row.factor)

/-- `ReasoningService.get_reasoning_by_moment`: the `ai_reasoning` rows of
the given moment, most recent first (`ORDER BY created_at DESC`), truncated
to `limit`, each rehydrated with its factor list and its context row. -/
def get_reasoning_by_moment (db : DBState) (moment_id : String) (limit : ℕ) :
    List AIReasoningResultV :=
  let rows := ((db.reasoning.filter (fun row => row.moment_id == moment_id)).insertionSort
    (fun a b => b.created_at ≤ a.created_at)).take limit
  rows.map (fun row =>
    let ctx := db.contexts.find? (fun c => c.reasoning_id == row.id)
    { moment_id := row.moment_id, decision := row.decision,
      confidence_score := row.confidence_score,
      factors := get_reasoning_factors db row.id,
      primary_reasoning := row.primary_reasoning,
      supporting_reasons := row.supporting_reasons,
      risk_factors := row.risk_factors,
      key_statistics := row.key_statistics,
      market_context := (ctx.map (fun c => c.market_context)).getD "",
      player_analysis := (ctx.map (fun c => c.player_analysis)).getD "",
      scarcity_analysis := (ctx.map (fun c => c.scarcity_analysis)).getD "",
      analysis_version := row.analysis_version })

/-! ### Concrete fixtures used by counterexamples and witnesses -/

/-- A game line of all zeros with no plus/minus value. -/
def zeroGame : GameStats :=
  { minutes_played := 0, points := 0, rebounds := 0, assists := 0, steals := 0,
    blocks := 0, turnovers := 0, field_goals_made := 0, field_goals_attempted := 0,
    free_throws_made := 0, free_throws_attempted := 0, plus_minus := none }

/-- A 36-minute game of all zeros except 30 turnovers: its efficiency
rating is −30 and its per-game composite −25. -/
def turnoverGame : GameStats :=
  { minutes_played := 36, points := 0, rebounds := 0, assists := 0, steals := 0,
    blocks := 0, turnovers := 30, field_goals_made := 0, field_goals_attempted := 0,
    free_throws_made := 0, free_throws_attempted := 0, plus_minus := none }

/-- A ten-point game line. -/
def tenPointGame : GameStats :=
  { minutes_played := 30, points := 10, rebounds := 5, assists := 4, steals := 1,
    blocks := 0, turnovers := 2, field_goals_made := 4, field_goals_attempted := 9,
    free_throws_made := 2, free_throws_attempted := 2, plus_minus := some 5 }

/-- First batch request (player with performance data). -/
def req1 : MomentAnalysisRequest :=
  { moment_id := "moment_1", player_id := "player_1", moment_type := .dunk,
    serial_number := 42, current_price := 150, marketplace_id := "topshot" }

/-- Second batch request (player without performance data). -/
def req2 : MomentAnalysisRequest :=
  { moment_id := "moment_2", player_id := "player_2", moment_type := .three_pointer,
    serial_number := 100, current_price := 80, marketplace_id := "topshot" }

/-- Third batch request (player with performance data). -/
def req3 : MomentAnalysisRequest :=
  { moment_id := "moment_3", player_id := "player_3", moment_type := .game_winner,
    serial_number := 7, current_price := 200, marketplace_id := "topshot" }

/-- Sample performance metrics for the first batch player. -/
def metrics1 : PlayerPerformanceMetrics :=
  { recent_form_score := 75, season_consistency := 68, clutch_performance := 82,
    injury_risk := 25, market_momentum := 60, breakout_potential := 45,
    veteran_stability := 70 }

/-- Sample performance metrics for the third batch player. -/
def metrics3 : PlayerPerformanceMetrics :=
  { recent_form_score := 60, season_consistency := 55, clutch_performance := 70,
    injury_risk := 30, market_momentum := 50, breakout_potential := 80,
    veteran_stability := 40 }

/-- A concrete valuation factor for the fair-value witness. -/
noncomputable def factorA : ValuationFactor :=
  { factor_type := "player_performance", weight := 0.5, value := 0.5,
    description := "a", impact := 10 }

/-- A second concrete valuation factor with the same normalized value. -/
noncomputable def factorB : ValuationFactor :=
  { factor_type := "scarcity", weight := 0.5, value := 0.5,
    description := "b", impact := 30 }

/-- A concrete, clearly undervalued analysis result. -/
noncomputable def sampleResult : MomentAnalysisResultV :=
  { moment_id := "m", valuation :=
      { moment_id := "m", fair_value := 150, confidence_score := 0.9,
        price_range_low := 127.5, price_range_high := 172.5,
        recommendation := "Strong Buy" },
    factors := [], market_current_price := 100, price_ratio := 1.5,
    recommendations := [] }

/-- A concrete reasoning factor (performance, weight 0.35). -/
def sampleFactorPerf : ReasoningFactorV :=
  { factor_type := .player_performance, name := "Player Performance",
    weight := 35/100, value := 3/4, raw_value := none, impact := 20,
    confidence := 4/5, description := "d", supporting_data := [] }

/-- A concrete reasoning factor (scarcity, weight 0.25). -/
def sampleFactorScarcity : ReasoningFactorV :=
  { factor_type := .scarcity, name := "Scarcity",
    weight := 25/100, value := 1/2, raw_value := some 60, impact := 10,
    confidence := 7/10, description := "d", supporting_data := [] }

/-- A concrete reasoning result with two factors, given in ascending
weight order so that the reload has to reorder them. -/
def sampleReasoning : AIReasoningResultV :=
  { moment_id := "moment_1", decision := "buy", confidence_score := 17/20,
    factors := [sampleFactorScarcity, sampleFactorPerf],
    primary_reasoning := "p", supporting_reasons := [], risk_factors := [],
    key_statistics := [], market_context := "mc", player_analysis := "pa",
    scarcity_analysis := "sa", analysis_version := "1.0" }

/-! ### Shared helper lemmas -/

/-- Every entry of the moment-type rarity table is at least 50, hence
violates the pydantic bound `moment_type_rarity ≤ 1`. -/
theorem momentTypeRarity_ge_50 (mt : MomentTypeT) : (50 : ℚ) ≤ momentTypeRarity mt := by
  cases mt <;> norm_num [momentTypeRarity]

/-- `_create_performance_factor` always fails pydantic validation: it
passes floats for the dict-typed performance fields. -/
theorem create_performance_factor_eq_error (m : PlayerPerformanceMetrics) :
    create_performance_factor m =
      .error "ValidationError: PlayerPerformanceFactor field types" := rfl

/-- `calculate_scarcity_factor` always fails pydantic validation: the
moment-type rarity it passes is at least 50 while the model bounds the
field to `[0,1]`. -/
theorem calculate_scarcity_factor_eq_error (req : MomentAnalysisRequest)
    (tm tc : ℤ) : calculate_scarcity_factor req tm tc =
      .error "ValidationError: ScarcityFactor bounds" := by
  have h50 : (50 : ℚ) ≤ momentTypeRarity req.moment_type := momentTypeRarity_ge_50 _
  have hlt : ¬ (((momentTypeRarity req.moment_type : ℚ) : ℝ) ≤ 1) := by
    push_neg
    calc (1 : ℝ) < 50 := by norm_num
    _ ≤ ((momentTypeRarity req.moment_type : ℚ) : ℝ) := by exact_mod_cast h50
  simp only [calculate_scarcity_factor, mkScarcityFactor]
  rw [if_neg]
  intro h
  exact hlt h.2.2.2.2.2.2.2.1

/-- `analyze_moment` always returns the performance-factor validation
error. -/
theorem analyze_moment_eq_error (req : MomentAnalysisRequest)
    (perf : PlayerPerformanceMetrics) (md : MarketData) (sd : Option SocialData) :
    analyze_moment req perf md sd =
      .error "ValidationError: PlayerPerformanceFactor field types" := by
  simp only [analyze_moment, create_performance_factor_eq_error, bind, Except.bind]

/-- `batch_analyze_moments` returns the empty list on every input. -/
theorem batch_analyze_moments_eq_nil (reqs : List MomentAnalysisRequest)
    (perfs : List (String × PlayerPerformanceMetrics))
    (md : List (String × MarketData)) :
    batch_analyze_moments reqs perfs md = [] := by
  induction reqs with
  | nil => rfl
  | cons r rest ih =>
    rw [batch_analyze_moments]
    cases perfs.lookup r.player_id with
    | none => simpa using ih
    | some p => simp [analyze_moment_eq_error, ih]

/-! ### Claim theorems -/

/-- C5: `calculate_recent_form_score` on the empty game list returns
exactly 50.0; `calculate_season_consistency` with fewer than five games
returns exactly 50.0; `calculate_clutch_performance` on a game list in
which no game carries a plus/minus value returns exactly 50.0. -/
theorem c5_neutral_fallbacks :
    calculate_recent_form_score [] none = 50 ∧
    (∀ (ss : SeasonStats) (gs : List GameStats), gs.length < 5 →
      calculate_season_consistency ss gs = 50) ∧
    (∀ gs : List GameStats, (∀ g ∈ gs, g.plus_minus = none) →
      calculate_clutch_performance gs = 50) := by
  refine ⟨rfl, ?_, ?_⟩
  · intro ss gs h
    rw [calculate_season_consistency, if_pos h]
  · intro gs h
    rw [calculate_clutch_performance]
    by_cases he : gs.isEmpty
    · rw [if_pos he]
    · rw [if_neg he]
      have hnil : gs.filterMap (fun g =>
          g.plus_minus.map (fun pm => max 0 (min 100 (50 + (pm : ℚ) * 2)))) = [] := by
        rw [List.filterMap_eq_nil_iff]
        intro g hg
        rw [h g hg]
        rfl
      rw [hnil]
      rfl

/-- C5 witness: the fallbacks at concrete inputs — four games is fewer
than five, and a single game without a plus/minus value. -/
theorem c5_neutral_fallbacks_witness :
    calculate_season_consistency ⟨20, 8, 5⟩ [zeroGame, zeroGame, zeroGame, zeroGame] = 50 ∧
    calculate_clutch_performance [zeroGame] = 50 :=
  ⟨c5_neutral_fallbacks.2.1 ⟨20, 8, 5⟩ _ (by norm_num),
   c5_neutral_fallbacks.2.2 [zeroGame] (by intro g hg; simp at hg; subst hg; rfl)⟩

/-- C2 (code bug evaluation): the per-game composite of
`calculate_recent_form_score` is only capped above; on a 36-minute,
30-turnover, otherwise zero game the recent-form score is −25, outside the
`[0,100]` range the specification and the `PlayerPerformanceMetrics` model
bound (`ge=0`) require. -/
theorem c2_recent_form_below_zero :
    calculate_recent_form_score [turnoverGame] none = -25 ∧
    ¬ (0 ≤ calculate_recent_form_score [turnoverGame] none) := by
  have h : calculate_recent_form_score [turnoverGame] none = -25 := by
    norm_num [calculate_recent_form_score, defaultRecencyWeights, List.range_succ,
      gameCompositeScore, turnoverGame, GameStats.efficiency_rating]
  exact ⟨h, by rw [h]; norm_num⟩

/-- C4: the recommendation label is determined by the price ratio
`fair_value / current_price` (which is what `analyze_moment` passes to
`recommendation_for_ratio`) with thresholds 1.2 / 1.05 / 0.95 / 0.8, and
the ratios 1.3, 1.1, 1.0, 0.9, 0.7 yield Strong Buy, Buy, Hold, Sell and
Strong Sell respectively. -/
theorem c4_recommendation_thresholds :
    (∀ r : ℝ,
      (1.2 < r → recommendation_for_ratio r = "Strong Buy") ∧
      (1.05 < r → r ≤ 1.2 → recommendation_for_ratio r = "Buy") ∧
      (0.95 < r → r ≤ 1.05 → recommendation_for_ratio r = "Hold") ∧
      (0.8 < r → r ≤ 0.95 → recommendation_for_ratio r = "Sell") ∧
      (r ≤ 0.8 → recommendation_for_ratio r = "Strong Sell")) ∧
    recommendation_for_ratio 1.3 = "Strong Buy" ∧
    recommendation_for_ratio 1.1 = "Buy" ∧
    recommendation_for_ratio 1 = "Hold" ∧
    recommendation_for_ratio 0.9 = "Sell" ∧
    recommendation_for_ratio 0.7 = "Strong Sell" := by
  have key : ∀ r : ℝ,
      (1.2 < r → recommendation_for_ratio r = "Strong Buy") ∧
      (1.05 < r → r ≤ 1.2 → recommendation_for_ratio r = "Buy") ∧
      (0.95 < r → r ≤ 1.05 → recommendation_for_ratio r = "Hold") ∧
      (0.8 < r → r ≤ 0.95 → recommendation_for_ratio r = "Sell") ∧
      (r ≤ 0.8 → recommendation_for_ratio r = "Strong Sell") := by
    intro r
    unfold recommendation_for_ratio
    refine ⟨fun h => by rw [if_pos h], ?_, ?_, ?_, ?_⟩
    · intro h1 h2
      rw [if_neg (by linarith), if_pos h1]
    · intro h1 h2
      rw [if_neg (by linarith), if_neg (by linarith), if_pos h1]
    · intro h1 h2
      rw [if_neg (by linarith), if_neg (by linarith), if_neg (by linarith), if_pos h1]
    · intro h1
      rw [if_neg (by linarith), if_neg (by linarith), if_neg (by linarith),
        if_neg (by linarith)]
  exact ⟨key, (key 1.3).1 (by norm_num), (key 1.1).2.1 (by norm_num) (by norm_num),
    (key 1).2.2.1 (by norm_num) (by norm_num),
    (key 0.9).2.2.2.1 (by norm_num) (by norm_num),
    (key 0.7).2.2.2.2 (by norm_num)⟩

/-- C4 witness: the theorem applied at the concrete ratio 1.3. -/
theorem c4_recommendation_thresholds_witness :
    recommendation_for_ratio 1.3 = "Strong Buy" :=
  (c4_recommendation_thresholds.1 1.3).1 (by norm_num)

/-- C6 counterexample: serial numbers 1000 and 2000 are distinct, yet both
serial rarities saturate at 0, so the lower serial does not get a strictly
greater serial rarity. -/
theorem c6_counterexample_saturation :
    (1000 : ℤ) < 2000 ∧ serialNumberRarity 1000 = 0 ∧ serialNumberRarity 2000 = 0 ∧
    ¬ (serialNumberRarity 2000 < serialNumberRarity 1000) := by
  norm_num [serialNumberRarity]

/-- C6 amended: lowering the serial number weakly increases serial rarity;
the increase is strict whenever the lower serial is below the saturation
point 1000 and the higher serial is positive; and the game-winner
moment-type rarity is 95, hence at least 90. -/
theorem c6_serial_monotone_and_game_winner :
    (∀ s1 s2 : ℤ, s1 < s2 → serialNumberRarity s2 ≤ serialNumberRarity s1) ∧
    (∀ s1 s2 : ℤ, s1 < s2 → s1 < 1000 → 0 < s2 →
      serialNumberRarity s2 < serialNumberRarity s1) ∧
    momentTypeRarity .game_winner = 95 ∧ (90 : ℚ) ≤ momentTypeRarity .game_winner := by
  refine ⟨?_, ?_, rfl, by norm_num [momentTypeRarity]⟩
  · intro s1 s2 h
    have hq : (s1 : ℚ) < (s2 : ℚ) := by exact_mod_cast h
    unfold serialNumberRarity
    have : 100 - ((s2 : ℚ) / 1000) * 100 ≤ 100 - ((s1 : ℚ) / 1000) * 100 := by linarith
    exact min_le_min le_rfl (max_le_max le_rfl this)
  · intro s1 s2 h h1 h2
    have hq : (s1 : ℚ) < (s2 : ℚ) := by exact_mod_cast h
    have h1q : (s1 : ℚ) < 1000 := by exact_mod_cast h1
    have h2q : (0 : ℚ) < (s2 : ℚ) := by exact_mod_cast h2
    unfold serialNumberRarity
    have hf1 : 0 < 100 - ((s1 : ℚ) / 1000) * 100 := by linarith
    have hf2 : 100 - ((s2 : ℚ) / 1000) * 100 < 100 := by linarith
    have hff : 100 - ((s2 : ℚ) / 1000) * 100 < 100 - ((s1 : ℚ) / 1000) * 100 := by linarith
    rw [max_eq_right hf1.le]
    refine lt_min ?_ ?_
    · exact lt_of_le_of_lt (min_le_right _ _) (max_lt (by norm_num) hf2)
    · exact lt_of_le_of_lt (min_le_right _ _) (max_lt hf1 hff)

/-- C6 witness: the amended monotonicity at serials 5 and 500, and strict
rarity gain there. -/
theorem c6_serial_monotone_witness :
    serialNumberRarity 500 ≤ serialNumberRarity 5 ∧
    serialNumberRarity 500 < serialNumberRarity 5 :=
  ⟨c6_serial_monotone_and_game_winner.1 5 500 (by norm_num),
   c6_serial_monotone_and_game_winner.2.1 5 500 (by norm_num) (by norm_num) (by norm_num)⟩

/-- C1: for every input, `analyze_moment` fails pydantic validation before
returning — `_create_performance_factor` passes floats for the dict-typed
performance fields (and a 0-100 clutch score against a `[0,1]` bound), and
`calculate_scarcity_factor` passes 0-100-scale rarities against `[0,1]`
bounds — and consequently `batch_analyze_moments`, which catches per-item
exceptions, returns the empty list on every input batch. -/
theorem c1_analyze_moment_always_raises :
    (∀ m : PlayerPerformanceMetrics, ∃ e, create_performance_factor m = .error e) ∧
    (∀ (req : MomentAnalysisRequest) (tm tc : ℤ),
      ∃ e, calculate_scarcity_factor req tm tc = .error e) ∧
    (∀ (req : MomentAnalysisRequest) (perf : PlayerPerformanceMetrics)
      (md : MarketData) (sd : Option SocialData),
      ∃ e, analyze_moment req perf md sd = .error e) ∧
    (∀ (reqs : List MomentAnalysisRequest)
      (perfs : List (String × PlayerPerformanceMetrics))
      (md : List (String × MarketData)),
      batch_analyze_moments reqs perfs md = []) :=
  ⟨fun m => ⟨_, create_performance_factor_eq_error m⟩,
   fun req tm tc => ⟨_, calculate_scarcity_factor_eq_error req tm tc⟩,
   fun req perf md sd => ⟨_, analyze_moment_eq_error req perf md sd⟩,
   batch_analyze_moments_eq_nil⟩

/-- C8 (code bug evaluation): on the three-item batch in which only the
second item lacks performance data, the source returns zero results, not
the two the specification promises — every per-item `analyze_moment` call
raises a pydantic `ValidationError` that the batch loop catches and
skips.  No exception escapes (the embedding is total), but the batch is
empty. -/
theorem c8_three_item_batch_is_empty :
    batch_analyze_moments [req1, req2, req3]
      [("player_1", metrics1), ("player_3", metrics3)] [] = [] ∧
    (batch_analyze_moments [req1, req2, req3]
      [("player_1", metrics1), ("player_3", metrics3)] []).length = 0 ∧
    (batch_analyze_moments [req1, req2, req3]
      [("player_1", metrics1), ("player_3", metrics3)] []).length ≠ 2 := by
  have h := batch_analyze_moments_eq_nil [req1, req2, req3]
    [("player_1", metrics1), ("player_3", metrics3)] []
  exact ⟨h, by rw [h]; rfl, by rw [h]; simp⟩

/-- C3: with positive total weight, `calculate_fair_value` returns the
fair value `base_price · (1 + avgImpact/100)` for
`avgImpact = Σ impact·weight / Σ weight`, and the confidence
`clamp(1 − std(values), 0.3, 1.0)` with at least two factors and 0.5
otherwise. -/
theorem c3_fair_value_formula :
    ∀ (factors : List ValuationFactor) (base_price : ℚ),
      0 < (factors.map (fun f => f.weight)).sum →
      (calculate_fair_value factors base_price).1 =
        (base_price : ℝ) * (1 + ((factors.map (fun f => f.impact * f.weight)).sum /
          (factors.map (fun f => f.weight)).sum) / 100) ∧
      (2 ≤ factors.length →
        (calculate_fair_value factors base_price).2 =
          max 0.3 (min 1 (1 - listStdR (factors.map (fun f => f.value))))) ∧
      (factors.length < 2 → (calculate_fair_value factors base_price).2 = 0.5) := by
  intro factors base_price hw
  refine ⟨?_, ?_, ?_⟩
  · simp only [calculate_fair_value, if_pos hw]
  · intro h2
    have h : 1 < (factors.map (fun f => f.value)).length := by
      rw [List.length_map]; omega
    simp only [calculate_fair_value, if_pos h]
  · intro h2
    have h : ¬ 1 < (factors.map (fun f => f.value)).length := by
      rw [List.length_map]; omega
    simp only [calculate_fair_value, if_neg h]

/-- C3 witness: two factors of weight 0.5 each (total weight 1) and equal
normalized values; the fair value is the base price scaled by the average
impact and the confidence clamps `1 − std` with the two-factor branch. -/
theorem c3_fair_value_formula_witness :
    (0 : ℝ) < ([factorA, factorB].map (fun f => f.weight)).sum ∧
    (calculate_fair_value [factorA, factorB] 100).1 =
      (100 : ℝ) * (1 + (([factorA, factorB].map (fun f => f.impact * f.weight)).sum /
        ([factorA, factorB].map (fun f => f.weight)).sum) / 100) ∧
    (calculate_fair_value [factorA, factorB] 100).2 =
      max 0.3 (min 1 (1 - listStdR ([factorA, factorB].map (fun f => f.value)))) := by
  have hw : (0 : ℝ) < ([factorA, factorB].map (fun f => f.weight)).sum := by
    norm_num [factorA, factorB]
  have h := c3_fair_value_formula [factorA, factorB] 100 hw
  exact ⟨hw, h.1, h.2.1 (by norm_num)⟩

/-- C10: `predict_next_game_performance` with no recent games returns the
season per-game averages with confidence exactly 0.5; with recent games it
returns the last-five-game averages with points divided by the difficulty
ratio `opponent_defense_rating / 112.0`, rebounds unadjusted, assists
divided by half the difficulty ratio, and (whenever the recent points
average is nonzero, so the quotient is finite) confidence
`max(0.3, 1 − std(points of last 10) / recentPointsAvg)`. -/
theorem c10_predict_next_game :
    ∀ (ss : SeasonStats) (gs : List GameStats) (odr : ℚ),
      (gs = [] → predict_next_game_performance ss gs odr =
        ⟨ss.points_per_game, ss.rebounds_per_game, ss.assists_per_game, 0.5⟩) ∧
      (gs ≠ [] → listMean ((lastN 5 gs).map (fun g => (g.points : ℚ))) ≠ 0 →
        predict_next_game_performance ss gs odr =
          { predicted_points :=
              listMean ((lastN 5 gs).map (fun g => (g.points : ℚ))) / (odr / 112),
            predicted_rebounds :=
              listMean ((lastN 5 gs).map (fun g => (g.rebounds : ℚ))),
            predicted_assists :=
              listMean ((lastN 5 gs).map (fun g => (g.assists : ℚ))) / (odr / 112 * (1/2)),
            confidence := max 0.3
              (1 - listStd ((lastN 10 gs).map (fun g => (g.points : ℚ))) /
                ((listMean ((lastN 5 gs).map (fun g => (g.points : ℚ))) : ℚ) : ℝ)) }) := by
  intro ss gs odr
  constructor
  · intro h
    subst h
    rfl
  · intro hne hmean
    have hempty : gs.isEmpty = false := by
      cases gs with
      | nil => exact absurd rfl hne
      | cons a l => rfl
    simp only [predict_next_game_performance, hempty, Bool.false_eq_true, if_false,
      if_neg hmean]

/-- C10 witness: the empty-game fallback at concrete season averages, and
the adjusted five-game averages on a single ten-point game against a
defense rated 110. -/
theorem c10_predict_next_game_witness :
    predict_next_game_performance ⟨20, 8, 5⟩ [] 110 = ⟨20, 8, 5, 0.5⟩ ∧
    ([tenPointGame] ≠ ([] : List GameStats)) ∧
    listMean ((lastN 5 [tenPointGame]).map (fun g => (g.points : ℚ))) ≠ 0 ∧
    predict_next_game_performance ⟨20, 8, 5⟩ [tenPointGame] 110 =
      { predicted_points :=
          listMean ((lastN 5 [tenPointGame]).map (fun g => (g.points : ℚ))) / (110 / 112),
        predicted_rebounds :=
          listMean ((lastN 5 [tenPointGame]).map (fun g => (g.rebounds : ℚ))),
        predicted_assists :=
          listMean ((lastN 5 [tenPointGame]).map (fun g => (g.assists : ℚ))) /
            (110 / 112 * (1/2)),
        confidence := max 0.3
          (1 - listStd ((lastN 10 [tenPointGame]).map (fun g => (g.points : ℚ))) /
            ((listMean ((lastN 5 [tenPointGame]).map (fun g => (g.points : ℚ))) : ℚ) : ℝ)) } := by
  have hne : [tenPointGame] ≠ ([] : List GameStats) := by simp
  have hmean : listMean ((lastN 5 [tenPointGame]).map (fun g => (g.points : ℚ))) ≠ 0 := by
    norm_num [listMean, lastN, tenPointGame]
  exact ⟨(c10_predict_next_game ⟨20, 8, 5⟩ [] 110).1 rfl, hne, hmean,
    (c10_predict_next_game ⟨20, 8, 5⟩ [tenPointGame] 110).2 hne hmean⟩

/-- C7: `get_undervalued_moments` returns only entries whose confidence
score reaches the supplied floor and whose upside ratio strictly exceeds
`1 + min_upside`, and the returned list is sorted in descending order of
that ratio. -/
theorem c7_undervalued_filter_and_sort :
    ∀ (results : List MomentAnalysisResultV) (min_confidence min_upside : ℝ),
      (∀ r ∈ get_undervalued_moments results min_confidence min_upside,
        min_confidence ≤ r.valuation.confidence_score ∧
        1 + min_upside < upsideRatio r) ∧
      (get_undervalued_moments results min_confidence min_upside).Sorted
        (fun a b => upsideRatio b ≤ upsideRatio a) := by
  intro results minc minu
  constructor
  · intro r hr
    simp only [get_undervalued_moments, List.mem_insertionSort, List.mem_filter,
      Bool.and_eq_true, decide_eq_true_eq] at hr
    exact hr.2
  · haveI : IsTotal MomentAnalysisResultV (fun a b => upsideRatio b ≤ upsideRatio a) :=
      ⟨fun a b => le_total (upsideRatio b) (upsideRatio a)⟩
    haveI : IsTrans MomentAnalysisResultV (fun a b => upsideRatio b ≤ upsideRatio a) :=
      ⟨fun _ _ _ hab hbc => le_trans hbc hab⟩
    exact List.sorted_insertionSort _ _

/-- C7 witness: a single clearly undervalued result (confidence 0.9,
ratio 1.5) passes a 0.6 confidence floor and a 0.1 minimum upside, and the
theorem yields both bounds for it. -/
theorem c7_undervalued_filter_and_sort_witness :
    (0.6 : ℝ) ≤ sampleResult.valuation.confidence_score ∧
    1 + (0.1 : ℝ) < upsideRatio sampleResult := by
  have hcond : (decide ((0.6 : ℝ) ≤ sampleResult.valuation.confidence_score) &&
      decide (1 + (0.1 : ℝ) < upsideRatio sampleResult)) = true := by
    rw [Bool.and_eq_true, decide_eq_true_eq, decide_eq_true_eq]
    constructor <;> norm_num [sampleResult, upsideRatio]
  have heq : get_undervalued_moments [sampleResult] 0.6 0.1 = [sampleResult] := by
    simp only [get_undervalued_moments, List.filter_cons, List.filter_nil, hcond,
      if_true]
    rfl
  refine (c7_undervalued_filter_and_sort [sampleResult] 0.6 0.1).1 sampleResult ?_
  rw [heq]
  exact List.mem_singleton_self _

/-- The insertion sort by descending `created_at` of a list whose member
`x` has strictly the greatest `created_at` among all other members starts
with `x`. -/
theorem insertionSort_head_of_max_created (l : List ReasoningRow) (x : ReasoningRow)
    (hx : x ∈ l) (hmax : ∀ y ∈ l, y ≠ x → y.created_at < x.created_at) :
    ∃ t, l.insertionSort (fun a b => b.created_at ≤ a.created_at) = x :: t := by
  haveI : IsTotal ReasoningRow (fun a b => b.created_at ≤ a.created_at) :=
    ⟨fun a b => le_total b.created_at a.created_at⟩
  haveI : IsTrans ReasoningRow (fun a b => b.created_at ≤ a.created_at) :=
    ⟨fun _ _ _ hab hbc => le_trans hbc hab⟩
  have hs := List.sorted_insertionSort (fun a b => b.created_at ≤ a.created_at) l
  have hp := List.perm_insertionSort (fun a b => b.created_at ≤ a.created_at) l
  have hm : x ∈ l.insertionSort (fun a b => b.created_at ≤ a.created_at) :=
    (List.mem_insertionSort _).mpr hx
  cases hL : l.insertionSort (fun a b => b.created_at ≤ a.created_at) with
  | nil => rw [hL] at hm; cases hm
  | cons h t =>
    rw [hL] at hs hm hp
    rcases List.mem_cons.mp hm with he | hmt
    · exact ⟨t, by rw [he]⟩
    · have hxh : x.created_at ≤ h.created_at := (List.pairwise_cons.mp hs).1 x hmt
      have hhl : h ∈ l := hp.mem_iff.mp (List.mem_cons_self h t)
      by_cases heq : h = x
      · exact ⟨t, by rw [heq]⟩
      · exact absurd hxh (by have := hmax h hhl heq; omega)

/-- C9: storing an `AIReasoningResult` and reloading by its moment id (in
a store whose rows respect the monotone `created_at` clock and the fresh
id counter) yields, first in the returned list, a record with the same
decision, the same confidence score and the same number of factors, whose
factor list is ordered by descending weight. -/
theorem c9_store_reload_round_trip :
    ∀ (r : AIReasoningResultV) (uid : Option String) (db : DBState) (limit : ℕ),
      (∀ row ∈ db.reasoning, row.created_at < db.clock) →
      (∀ row ∈ db.factors, row.reasoning_id < db.next_id) →
      1 ≤ limit →
      ∃ rec rest,
        get_reasoning_by_moment (store_reasoning r uid db).2 r.moment_id limit =
          rec :: rest ∧
        rec.decision = r.decision ∧
        rec.confidence_score = r.confidence_score ∧
        rec.factors.length = r.factors.length ∧
        rec.factors.Sorted (fun a b => b.weight ≤ a.weight) := by
  intro r uid db limit hclock hfact hlim
  obtain ⟨n, rfl⟩ : ∃ n, limit = n + 1 := ⟨limit - 1, by omega⟩
  set newRow : ReasoningRow :=
    { id := db.next_id, moment_id := r.moment_id, user_id := uid,
      decision := r.decision, confidence_score := r.confidence_score,
      primary_reasoning := r.primary_reasoning,
      supporting_reasons := r.supporting_reasons,
      risk_factors := r.risk_factors, key_statistics := r.key_statistics,
      analysis_version := r.analysis_version, created_at := db.clock }
    with hnewRow
  have hdb2 : (store_reasoning r uid db).2 =
      { reasoning := db.reasoning ++ [newRow],
        factors := db.factors ++ r.factors.map
          (fun f => ({ reasoning_id := db.next_id, factor := f } : FactorRow)),
        contexts := db.contexts ++
          [{ reasoning_id := db.next_id, player_analysis := r.player_analysis,
             market_context := r.market_context,
             scarcity_analysis := r.scarcity_analysis }],
        next_id := db.next_id + 1, clock := db.clock + 1 } := rfl
  -- the filtered parent rows are the old matches followed by the new row
  have hfilter : (db.reasoning ++ [newRow]).filter
      (fun row => row.moment_id == r.moment_id) =
      db.reasoning.filter (fun row => row.moment_id == r.moment_id) ++ [newRow] := by
    rw [List.filter_append]
    simp
  -- the new row has strictly the greatest timestamp among the matches
  have hmax : ∀ y ∈ (db.reasoning ++ [newRow]).filter
      (fun row => row.moment_id == r.moment_id), y ≠ newRow →
      y.created_at < newRow.created_at := by
    intro y hy hne
    rw [hfilter] at hy
    rcases List.mem_append.mp hy with hold | hnew
    · exact hclock y (List.mem_of_mem_filter hold)
    · exact absurd (List.mem_singleton.mp hnew) hne
  have hxmem : newRow ∈ (db.reasoning ++ [newRow]).filter
      (fun row => row.moment_id == r.moment_id) := by
    rw [hfilter]
    exact List.mem_append_right _ (List.mem_singleton_self _)
  obtain ⟨t, ht⟩ := insertionSort_head_of_max_created _ newRow hxmem hmax
  -- the factor rows filtered by the fresh id are exactly the new ones
  have hffilter : (db.factors ++ r.factors.map
      (fun f => ({ reasoning_id := db.next_id, factor := f } : FactorRow))).filter
      (fun row => row.reasoning_id == db.next_id) =
      r.factors.map (fun f => ({ reasoning_id := db.next_id, factor := f } : FactorRow)) := by
    rw [List.filter_append]
    have h1 : db.factors.filter (fun row => row.reasoning_id == db.next_id) = [] := by
      rw [List.filter_eq_nil_iff]
      intro a ha
      have := hfact a ha
      simp only [beq_iff_eq]
      omega
    have h2 : (r.factors.map (fun f =>
        ({ reasoning_id := db.next_id, factor := f } : FactorRow))).filter
        (fun row => row.reasoning_id == db.next_id) =
        r.factors.map (fun f => { reasoning_id := db.next_id, factor := f }) := by
      rw [List.filter_eq_self]
      intro a ha
      rw [List.mem_map] at ha
      obtain ⟨f, -, rfl⟩ := ha
      simp
    rw [h1, h2, List.nil_append]
  -- the reloaded factor list of the new record
  haveI : IsTotal FactorRow (fun a b => b.factor.weight ≤ a.factor.weight) :=
    ⟨fun a b => le_total b.factor.weight a.factor.weight⟩
  haveI : IsTrans FactorRow (fun a b => b.factor.weight ≤ a.factor.weight) :=
    ⟨fun _ _ _ hab hbc => le_trans hbc hab⟩
  have hfactors : get_reasoning_factors (store_reasoning r uid db).2 db.next_id =
      (((r.factors.map (fun f =>
        ({ reasoning_id := db.next_id, factor := f } : FactorRow))).insertionSort
        (fun a b => b.factor.weight ≤ a.factor.weight)).map (fun row => row.factor)) := by
    simp only [get_reasoning_factors, hdb2]
    rw [hffilter]
  have hflen : (get_reasoning_factors (store_reasoning r uid db).2 db.next_id).length =
      r.factors.length := by
    rw [hfactors, List.length_map, List.length_insertionSort, List.length_map]
  have hfsorted : (get_reasoning_factors (store_reasoning r uid db).2
      db.next_id).Sorted (fun a b => b.weight ≤ a.weight) := by
    rw [hfactors]
    rw [List.Sorted, List.pairwise_map]
    exact List.sorted_insertionSort _ _
  -- assemble the returned list
  simp only [get_reasoning_by_moment, hdb2]
  rw [ht, List.take_succ_cons, List.map_cons]
  refine ⟨_, _, rfl, rfl, rfl, ?_, ?_⟩
  · exact hflen
  · exact hfsorted

/-- C9 witness: storing a concrete two-factor reasoning record in the
empty store and reloading it by its moment id returns it first, with the
same decision, confidence and factor count and the factors in descending
weight order. -/
theorem c9_store_reload_round_trip_witness :
    ∃ rec rest,
      get_reasoning_by_moment (store_reasoning sampleReasoning none emptyDB).2
        sampleReasoning.moment_id 10 = rec :: rest ∧
      rec.decision = sampleReasoning.decision ∧
      rec.confidence_score = sampleReasoning.confidence_score ∧
      rec.factors.length = sampleReasoning.factors.length ∧
      rec.factors.Sorted (fun a b => b.weight ≤ a.weight) :=
  c9_store_reload_round_trip sampleReasoning none emptyDB 10
    (by intro row h; simp [emptyDB] at h) (by intro row h; simp [emptyDB] at h)
    (by norm_num)

end FastBreak
